import Mathlib

/-!
# Tracker_Truck_app — verification of the location-ingestion pipeline

Shallow embedding of the server-side ingestion code of the Tracker_Truck_app
repository:

* the per-vehicle dedup/throttle gate, metadata cache, latest-locations cache
  and the legacy Motive webhook handler (`server/routes.ts`);
* the storage collaborator's vehicle upsert (`server/storage.ts`);
* the Motive polling module: per-record normalization for the vehicle and the
  asset telemetry class, the pagination loop, and the mutually exclusive poll
  cycle (`server/motivePoller.ts`).

JavaScript numbers appearing in JSON payloads are modelled as rationals `ℚ`
(JSON numerals are finite decimals), wall-clock instants (`Date.now()`) as
`ℕ` milliseconds, and JavaScript `Map`s as association lists over `String`
keys.  Absent (`undefined`) fields are `Option`s; `a ?? b` is `Option.orElse`
and JavaScript truthiness on strings is "present and nonempty".
-/

namespace Tracker

/-- km/h → mph conversion factor `0.621371` used by the poller. -/
def kphToMphFactor : ℚ := 621371 / 1000000

/-- `LOCATION_UPDATE_INTERVAL_MS = 30 * 1000` (routes.ts). -/
def LOCATION_UPDATE_INTERVAL_MS : ℕ := 30 * 1000

/-- Spatial dedup threshold `0.0001` degrees (~10 m) from `hasLocationChanged`. -/
def coordThreshold : ℚ := 1 / 10000

/-- Lookup in an association list, modelling `Map.get`. -/
def alGet {α : Type} (m : List (String × α)) (k : String) : Option α :=
  (m.find? (fun p => p.1 == k)).map Prod.snd

/-- Update/insert in an association list, modelling `Map.set`. -/
def alSet {α : Type} (m : List (String × α)) (k : String) (v : α) : List (String × α) :=
  match m with
  | [] => [(k, v)]
  | (k', v') :: rest => if k' == k then (k, v) :: rest else (k', v') :: alSet rest k v

/-- A JavaScript `Date` value: either `new Date(string)` or `new Date(millis)`. -/
inductive TimeVal where
  | fromString (s : String)
  | fromMillis (ms : ℕ)
deriving DecidableEq

/-- One row of the `vehicle_locations` table (shared/schema.ts), `id` serial elided;
`receivedAt` is assigned by the database at insertion time. -/
structure LocationRow where
  vehicleId : String
  latitude : ℚ
  longitude : ℚ
  speed : ℚ
  heading : ℚ
  status : String
  timestamp : TimeVal
  receivedAt : ℕ
deriving DecidableEq

/-- One row of the `vehicles` metadata table (columns used by the server:
primary key `vehicleId`, display `name` and `color`). -/
structure VehicleRow where
  vehicleId : String
  name : String
  color : String
deriving DecidableEq

/-- `DatabaseStorage.upsertVehicle` (storage.ts): insert, and on conflict on
`vehicleId` update `name` and `color` to the incoming values. -/
def upsertVehicle (rows : List VehicleRow) (v : VehicleRow) : List VehicleRow :=
  if rows.any (fun r => r.vehicleId == v.vehicleId) then
    rows.map (fun r =>
      if r.vehicleId == v.vehicleId then { r with name := v.name, color := v.color } else r)
  else rows ++ [v]

/-- `DatabaseStorage.getVehicle` (storage.ts). -/
def getVehicleRow (rows : List VehicleRow) (vid : String) : Option VehicleRow :=
  rows.find? (fun r => r.vehicleId == vid)

/-- Value held by the in-memory vehicle metadata cache. -/
structure MetaVal where
  name : String
  color : String
deriving DecidableEq

/-- One message handed to the live-update transport.  Webhook broadcasts carry
the cached display name/color; the poller's `BroadcastFn` signature does not. -/
structure BroadcastMsg where
  vehicleId : String
  name? : Option String
  color? : Option String
  latitude : ℚ
  longitude : ℚ
  speed : ℚ
  heading : ℚ
  status : String
  timestamp : TimeVal
deriving DecidableEq

/-- The module-level mutable state of routes.ts plus the storage tables and the
stream of broadcast messages.  `webhookLogCount` models the size of the
`recentWebhooks` debug ring (capped at 50). -/
structure ServerState where
  lastUpdateTime : List (String × ℕ)
  lastKnownCoords : List (String × (ℚ × ℚ))
  locationCache : Option (List LocationRow × ℕ)
  metadataCache : List (String × MetaVal)
  dbVehicles : List VehicleRow
  dbLocations : List LocationRow
  broadcasts : List BroadcastMsg
  webhookLogCount : ℕ
deriving DecidableEq

/-- `shouldProcessLocationUpdate` (routes.ts): time-throttle check.  Returns the
decision and the updated `lastUpdateTime` map; note the map is written as soon
as the time check passes.  (`now - lastUpdate` is ℕ-truncated; since the
interval is positive this agrees with the JavaScript comparison.) -/
def shouldProcessLocationUpdate (now : ℕ) (lastUpdateTime : List (String × ℕ))
    (vehicleId : String) : Bool × List (String × ℕ) :=
  let lastUpdate := (alGet lastUpdateTime vehicleId).getD 0
  if LOCATION_UPDATE_INTERVAL_MS ≤ now - lastUpdate then
    (true, alSet lastUpdateTime vehicleId now)
  else
    (false, lastUpdateTime)

/-- `hasLocationChanged` (routes.ts): spatial dedup check.  Returns the decision
and the updated `lastKnownCoords` map. -/
def hasLocationChanged (lastKnownCoords : List (String × (ℚ × ℚ))) (vehicleId : String)
    (lat lon : ℚ) : Bool × List (String × (ℚ × ℚ)) :=
  match alGet lastKnownCoords vehicleId with
  | none => (true, alSet lastKnownCoords vehicleId (lat, lon))
  | some (plat, plon) =>
    if |plat - lat| < coordThreshold ∧ |plon - lon| < coordThreshold then
      (false, lastKnownCoords)
    else
      (true, alSet lastKnownCoords vehicleId (lat, lon))

/-- `{ id, number }` of a nested `vehicle` object in a webhook payload. -/
structure VehicleRef where
  id? : Option String
  number? : Option String
deriving DecidableEq

/-- A nested location object (`location` / `current_location`) in a webhook
payload. -/
structure LocRef where
  lat? : Option ℚ
  lon? : Option ℚ
  latitude? : Option ℚ
  longitude? : Option ℚ
  speed? : Option ℚ
  bearing? : Option ℚ
  heading? : Option ℚ
  located_at? : Option String
deriving DecidableEq

/-- A webhook JSON object body: the fields the handler reads, plus `otherKeys`
for any keys it does not read (so `Object.keys(body).length` is representable). -/
structure WebhookBody where
  action? : Option String
  vehicle_id? : Option String
  vehicle_number? : Option String
  vehicle? : Option VehicleRef
  lat? : Option ℚ
  lon? : Option ℚ
  latitude? : Option ℚ
  longitude? : Option ℚ
  location? : Option LocRef
  current_location? : Option LocRef
  speed? : Option ℚ
  bearing? : Option ℚ
  heading? : Option ℚ
  type? : Option String
  event_type? : Option String
  status? : Option String
  located_at? : Option String
  timestamp? : Option String
  otherKeys : List String
deriving DecidableEq

/-- `Object.keys(webhookData).length === 0`. -/
def WebhookBody.isEmptyObject (b : WebhookBody) : Bool :=
  b.action?.isNone && b.vehicle_id?.isNone && b.vehicle_number?.isNone &&
  b.vehicle?.isNone && b.lat?.isNone && b.lon?.isNone && b.latitude?.isNone &&
  b.longitude?.isNone && b.location?.isNone && b.current_location?.isNone &&
  b.speed?.isNone && b.bearing?.isNone && b.heading?.isNone && b.type?.isNone &&
  b.event_type?.isNone && b.status?.isNone && b.located_at?.isNone &&
  b.timestamp?.isNone && b.otherKeys.isEmpty

/-- A webhook request body: Motive's verification probes POST a JSON array,
location events POST a JSON object. -/
inductive WebhookPayload where
  | arrayPayload (items : List String)
  | objectPayload (body : WebhookBody)
deriving DecidableEq

/-- JavaScript truthiness of a possibly-absent string. -/
def truthyStr (o : Option String) : Bool :=
  match o with
  | some s => !(s == "")
  | none => false

/-- Vehicle-id extraction of the webhook handler (truthiness-chained over
`vehicle_id`, `vehicle_number`, `vehicle.id`, `vehicle.number`, else "unknown"). -/
def extractWebhookVehicleId (b : WebhookBody) : String :=
  if truthyStr b.vehicle_id? then b.vehicle_id?.getD "unknown"
  else if truthyStr b.vehicle_number? then b.vehicle_number?.getD "unknown"
  else if truthyStr (b.vehicle?.bind VehicleRef.id?) then
    (b.vehicle?.bind VehicleRef.id?).getD "unknown"
  else if truthyStr (b.vehicle?.bind VehicleRef.number?) then
    (b.vehicle?.bind VehicleRef.number?).getD "unknown"
  else "unknown"

/-- Pair two optional coordinates; `some` only when both are present. -/
def bothCoords (x y : Option ℚ) : Option (ℚ × ℚ) :=
  match x, y with
  | some a, some b => some (a, b)
  | _, _ => none

/-- Coordinate extraction of the webhook handler: five shapes tried in order
(top-level `lat`/`lon`; `location.{lat,lon}`; `current_location.{lat,lon}`;
`current_location.{latitude,longitude}`; top-level `latitude`/`longitude`). -/
def extractWebhookLatLon (b : WebhookBody) : Option (ℚ × ℚ) :=
  (bothCoords b.lat? b.lon?).orElse fun _ =>
  (bothCoords (b.location?.bind LocRef.lat?) (b.location?.bind LocRef.lon?)).orElse fun _ =>
  (bothCoords (b.current_location?.bind LocRef.lat?)
    (b.current_location?.bind LocRef.lon?)).orElse fun _ =>
  (bothCoords (b.current_location?.bind LocRef.latitude?)
    (b.current_location?.bind LocRef.longitude?)).orElse fun _ =>
  bothCoords b.latitude? b.longitude?

/-- `webhookData.speed ?? webhookData.current_location?.speed ?? 0`. -/
def extractWebhookSpeed (b : WebhookBody) : ℚ :=
  ((b.speed?).orElse fun _ => b.current_location?.bind LocRef.speed?).getD 0

/-- `bearing ?? heading ?? current_location?.bearing ?? current_location?.heading ?? 0`. -/
def extractWebhookHeading (b : WebhookBody) : ℚ :=
  ((b.bearing?).orElse fun _ =>
    (b.heading?).orElse fun _ =>
      ((b.current_location?.bind LocRef.bearing?).orElse fun _ =>
        b.current_location?.bind LocRef.heading?)).getD 0

/-- `type ?? event_type ?? status ?? "unknown"`. -/
def extractWebhookStatus (b : WebhookBody) : String :=
  ((b.type?).orElse fun _ => (b.event_type?).orElse fun _ => b.status?).getD "unknown"

/-- `located_at ?? timestamp ?? current_location?.located_at ?? Date.now()`. -/
def extractWebhookTimestamp (now : ℕ) (b : WebhookBody) : TimeVal :=
  match (b.located_at?).orElse fun _ =>
      (b.timestamp?).orElse fun _ => b.current_location?.bind LocRef.located_at? with
  | some s => TimeVal.fromString s
  | none => TimeVal.fromMillis now

/-- The distinct exit points of the webhook handler. -/
inductive WebhookOutcome where
  | verifiedPing
  | emptyOk
  | ignoredAction
  | noCoords
  | throttled
  | unchangedSkipped
  | stored
deriving DecidableEq

/-- HTTP status code of each handler exit. -/
def WebhookOutcome.httpStatus : WebhookOutcome → ℕ
  | .noCoords => 400
  | _ => 200

/-- `recentWebhooks.unshift(...)` with its 50-entry cap. -/
def bumpWebhookLog (st : ServerState) : ServerState :=
  { st with webhookLogCount := min (st.webhookLogCount + 1) 50 }

def defaultVehicleColor : String := "#3b82f6"

def defaultAssetColor : String := "#10b981"

/-- `getVehicleMetadata` (routes.ts): cache lookup with id-as-name default. -/
def getVehicleMetadata (st : ServerState) (vehicleId : String) : MetaVal :=
  (alGet st.metadataCache vehicleId).getD { name := vehicleId, color := defaultVehicleColor }

/-- The row the webhook handler inserts for an accepted reading (`receivedAt`
is database-assigned at insertion time). -/
def webhookRow (now : ℕ) (b : WebhookBody) (lat lon : ℚ) : LocationRow :=
  { vehicleId := extractWebhookVehicleId b, latitude := lat, longitude := lon,
    speed := extractWebhookSpeed b, heading := extractWebhookHeading b,
    status := extractWebhookStatus b, timestamp := extractWebhookTimestamp now b,
    receivedAt := now }

/-- Accepted-path tail of the webhook handler: ensure-vehicle-exists via the
metadata cache (auto-create with id-as-name and the default color when the
cached name equals the id), insert the row, invalidate the latest-locations
cache, and broadcast with the cached display name/color. -/
def webhookStore (now : ℕ) (b : WebhookBody) (lat lon : ℚ) (st : ServerState) :
    ServerState :=
  let vehicleId := extractWebhookVehicleId b
  let existingMeta := getVehicleMetadata st vehicleId
  let st3 :=
    if existingMeta.name == vehicleId then
      { st with
        dbVehicles := upsertVehicle st.dbVehicles
          { vehicleId := vehicleId, name := vehicleId, color := defaultVehicleColor },
        metadataCache := alSet st.metadataCache vehicleId
          { name := vehicleId, color := defaultVehicleColor } }
    else st
  let st4 := { st3 with dbLocations := st3.dbLocations ++ [webhookRow now b lat lon],
                        locationCache := none }
  let meta := getVehicleMetadata st4 vehicleId
  let msg : BroadcastMsg :=
    { vehicleId := vehicleId, name? := some meta.name, color? := some meta.color,
      latitude := lat, longitude := lon, speed := extractWebhookSpeed b,
      heading := extractWebhookHeading b, status := extractWebhookStatus b,
      timestamp := extractWebhookTimestamp now b }
  { st4 with broadcasts := st4.broadcasts ++ [msg] }

/-- The `POST /api/webhooks/motive` handler of routes.ts, from the point the
parsed body is examined.  Signature verification is log-only in the source
("temporarily accepting all requests"), so it has no semantic effect.  The
JavaScript re-validation `typeof lat === 'number' && isFinite(lat)` after the
throttle check is identically true here because extracted coordinates are ℚ. -/
def handleMotiveWebhook (now : ℕ) (payload : WebhookPayload) (st0 : ServerState) :
    WebhookOutcome × ServerState :=
  let st := bumpWebhookLog st0
  match payload with
  | .arrayPayload _ => (.verifiedPing, st)
  | .objectPayload b =>
    if b.isEmptyObject then (.emptyOk, st)
    else if !(b.action? == some "vehicle_location_received") &&
        !(b.action? == some "vehicle_location_updated") then
      (.ignoredAction, st)
    else
      let vehicleId := extractWebhookVehicleId b
      match extractWebhookLatLon b with
      | none => (.noCoords, st)
      | some (lat, lon) =>
        let gate1 := shouldProcessLocationUpdate now st.lastUpdateTime vehicleId
        let st1 := { st with lastUpdateTime := gate1.2 }
        if !gate1.1 then (.throttled, st1)
        else
          let gate2 := hasLocationChanged st1.lastKnownCoords vehicleId lat lon
          let st2 := { st1 with lastKnownCoords := gate2.2 }
          if !gate2.1 then (.unchangedSkipped, st2)
          else (.stored, webhookStore now b lat lon st2)

/-! ## Motive poller (server/motivePoller.ts) -/

/-- The `current_location` object of a raw vehicle record from
`/v3/vehicle_locations`. -/
structure VehicleLoc where
  lat? : Option ℚ
  latitude? : Option ℚ
  lon? : Option ℚ
  longitude? : Option ℚ
  speed? : Option ℚ
  kph? : Option ℚ
  bearing? : Option ℚ
  heading? : Option ℚ
  located_at? : Option String
  vehicle_state? : Option String
deriving DecidableEq

/-- A raw vehicle record after the `entry.vehicle || entry` unwrap (that unwrap
is pure selection and is elided). -/
structure RawVehicle where
  id? : Option String
  number? : Option String
  name? : Option String
  current_location? : Option VehicleLoc
deriving DecidableEq

/-- A normalized candidate reading as built by the poller loop body, together
with the fields used for metadata defaulting. -/
structure CanonReading where
  vehicleId : String
  latitude : ℚ
  longitude : ℚ
  speed : ℚ
  heading : ℚ
  status : String
  timestamp : TimeVal
deriving DecidableEq

/-- `String(vehicle.id || vehicle.number || "unknown")`. -/
def rawVehicleId (v : RawVehicle) : String :=
  if truthyStr v.id? then v.id?.getD "unknown"
  else if truthyStr v.number? then v.number?.getD "unknown"
  else "unknown"

/-- The vehicle-class loop body of `fetchVehicleLocations`, up to the value
passed to `insertVehicleLocationSchema.parse`: `none` means the record is
skipped (`continue`) — missing `current_location`, a missing/unparseable
coordinate (`Number(undefined)` is `NaN`, never finite), or the `(0,0)` no-fix
sentinel. -/
def normalizeVehicleRecord (now : ℕ) (v : RawVehicle) : Option CanonReading :=
  match v.current_location? with
  | none => none
  | some loc =>
    match (loc.lat?).orElse (fun _ => loc.latitude?),
        (loc.lon?).orElse (fun _ => loc.longitude?) with
    | some lat, some lon =>
      if lat = 0 ∧ lon = 0 then none
      else
        let speed := ((loc.speed?).orElse (fun _ => loc.kph?)).getD 0
        let heading := ((loc.bearing?).orElse (fun _ => loc.heading?)).getD 0
        let ts := match loc.located_at? with
          | some s => if s == "" then TimeVal.fromMillis now else TimeVal.fromString s
          | none => TimeVal.fromMillis now
        let status :=
          if truthyStr loc.vehicle_state? then loc.vehicle_state?.getD "unknown"
          else if 0 < speed then "moving"
          else "stopped"
        let speedMph := match loc.kph? with
          | some k => if k = 0 then speed else speed * kphToMphFactor
          | none => speed
        some { vehicleId := rawVehicleId v, latitude := lat, longitude := lon,
               speed := speedMph, heading := heading, status := status, timestamp := ts }
    | _, _ => none

/-- Whether the poller's broadcast callback has been installed via
`setBroadcastFunction` (it is `null` until the transport wires it). -/
structure PollerEnvFlags where
  broadcastSet : Bool
deriving DecidableEq

/-- The `vehicle_locations` row the poller inserts for a normalized reading. -/
def canonRow (now : ℕ) (r : CanonReading) : LocationRow :=
  { vehicleId := r.vehicleId, latitude := r.latitude, longitude := r.longitude,
    speed := r.speed, heading := r.heading, status := r.status,
    timestamp := r.timestamp, receivedAt := now }

/-- The argument the poller passes to its `BroadcastFn` (no name/color). -/
def canonMsg (r : CanonReading) : BroadcastMsg :=
  { vehicleId := r.vehicleId, name? := none, color? := none,
    latitude := r.latitude, longitude := r.longitude, speed := r.speed,
    heading := r.heading, status := r.status, timestamp := r.timestamp }

/-- Persist-and-fan-out tail of the vehicle loop body: `storage.getVehicle` (a
storage query per record), conditional `storage.upsertVehicle` with id-as-name
and the vehicle default color, `storage.insertVehicleLocation`, and the
optional broadcast.  It never touches the routes-module gate maps or caches. -/
def processVehicleEntry (flags : PollerEnvFlags) (now : ℕ) (v : RawVehicle)
    (st : ServerState) : ServerState :=
  match normalizeVehicleRecord now v with
  | none => st
  | some r =>
    let st1 :=
      match getVehicleRow st.dbVehicles r.vehicleId with
      | some _ => st
      | none =>
        let vehicleName :=
          if truthyStr v.number? then v.number?.getD r.vehicleId
          else if truthyStr v.name? then v.name?.getD r.vehicleId
          else r.vehicleId
        let newRow : VehicleRow :=
          { vehicleId := r.vehicleId, name := vehicleName, color := defaultVehicleColor }
        { st with dbVehicles := upsertVehicle st.dbVehicles newRow }
    let st2 := { st1 with dbLocations := st1.dbLocations ++ [canonRow now r] }
    if flags.broadcastSet then
      { st2 with broadcasts := st2.broadcasts ++ [canonMsg r] }
    else st2

/-- The location object of a raw asset record (`gateway.last_location ||
asset.current_location || asset.last_location || asset.location`). -/
structure AssetLoc where
  lat? : Option ℚ
  latitude? : Option ℚ
  lon? : Option ℚ
  longitude? : Option ℚ
  ground_speed_kph? : Option ℚ
  speed? : Option ℚ
  bearing? : Option ℚ
  heading? : Option ℚ
  located_at? : Option String
  moving? : Option Bool
deriving DecidableEq

/-- A raw asset record after the `entry.asset || entry` unwrap. -/
structure RawAsset where
  id? : Option String
  number? : Option String
  name? : Option String
  gatewayLastLocation? : Option AssetLoc
  current_location? : Option AssetLoc
  last_location? : Option AssetLoc
  location? : Option AssetLoc
deriving DecidableEq

/-- `String(asset.id || asset.number || "unknown")`. -/
def rawAssetId (a : RawAsset) : String :=
  if truthyStr a.id? then a.id?.getD "unknown"
  else if truthyStr a.number? then a.number?.getD "unknown"
  else "unknown"

/-- The `||`-chain choosing the asset's location object. -/
def assetLocation (a : RawAsset) : Option AssetLoc :=
  (a.gatewayLastLocation?).orElse fun _ =>
  (a.current_location?).orElse fun _ =>
  (a.last_location?).orElse fun _ => a.location?

/-- The asset-class loop body of `fetchAssetLocations`, up to the value passed
to `insertVehicleLocationSchema.parse`: the speed source
`ground_speed_kph ?? speed ?? 0` is always multiplied by the km/h→mph factor,
the status comes from the `moving === true` flag, and the id is prefixed with
`asset-`. -/
def normalizeAssetRecord (now : ℕ) (a : RawAsset) : Option CanonReading :=
  match assetLocation a with
  | none => none
  | some loc =>
    match (loc.lat?).orElse (fun _ => loc.latitude?),
        (loc.lon?).orElse (fun _ => loc.longitude?) with
    | some lat, some lon =>
      if lat = 0 ∧ lon = 0 then none
      else
        let speedKph := ((loc.ground_speed_kph?).orElse (fun _ => loc.speed?)).getD 0
        let speed := speedKph * kphToMphFactor
        let heading := ((loc.bearing?).orElse (fun _ => loc.heading?)).getD 0
        let ts := match loc.located_at? with
          | some s => if s == "" then TimeVal.fromMillis now else TimeVal.fromString s
          | none => TimeVal.fromMillis now
        let isMoving := loc.moving? == some true
        some { vehicleId := "asset-" ++ rawAssetId a, latitude := lat, longitude := lon,
               speed := speed, heading := heading,
               status := if isMoving then "moving" else "stopped", timestamp := ts }
    | _, _ => none

/-- Persist-and-fan-out tail of the asset loop body (default asset name
`asset.name || asset.number || "Asset " + id`, default asset color). -/
def processAssetEntry (flags : PollerEnvFlags) (now : ℕ) (a : RawAsset)
    (st : ServerState) : ServerState :=
  match normalizeAssetRecord now a with
  | none => st
  | some r =>
    let st1 :=
      match getVehicleRow st.dbVehicles r.vehicleId with
      | some _ => st
      | none =>
        let assetName :=
          if truthyStr a.name? then a.name?.getD r.vehicleId
          else if truthyStr a.number? then a.number?.getD r.vehicleId
          else "Asset " ++ rawAssetId a
        let newRow : VehicleRow :=
          { vehicleId := r.vehicleId, name := assetName, color := defaultAssetColor }
        { st with dbVehicles := upsertVehicle st.dbVehicles newRow }
    let st2 := { st1 with dbLocations := st1.dbLocations ++ [canonRow now r] }
    if flags.broadcastSet then
      { st2 with broadcasts := st2.broadcasts ++ [canonMsg r] }
    else st2

/-! ## Pagination loop and poll cycle (server/motivePoller.ts) -/

/-- The `pagination` object of an upstream page response; `total_pages? = none`
models a missing `total_pages` field (the code reads `total_pages || 1`). -/
structure Pagination where
  total_pages? : Option ℕ
deriving DecidableEq

/-- One upstream page response: a non-success HTTP status, or a page of raw
records plus an optional pagination object. -/
inductive PageResp (α : Type) where
  | httpError (code : ℕ)
  | ok (records : List α) (pagination? : Option Pagination)
deriving DecidableEq

/-- `data.pagination.total_pages || 1`. -/
def Pagination.effectiveTotalPages (pg : Pagination) : ℕ :=
  match pg.total_pages? with
  | some n => if n = 0 then 1 else n
  | none => 1

/-- Result of one class's `while (hasMore)` pagination loop: the state after
all processed records, the `totalProcessed` count, the list of page numbers
requested, the HTTP error that aborted the loop (if any), and whether the
modelling fuel ran out before the loop exited. -/
structure FetchLoopResult where
  st : ServerState
  processed : ℕ
  pagesRequested : List ℕ
  errorCode? : Option ℕ
  fuelExhausted : Bool
deriving DecidableEq

/-- The pagination loop shared (textually duplicated) by `fetchVehicleLocations`
and `fetchAssetLocations`: request a page; on a non-success status abort the
class; on an empty page stop; otherwise process every record, then stop when
`page >= (pagination.total_pages || 1)`, or — with no pagination object — when
the page held fewer than 100 records; else advance to the next page.  `fuel`
bounds the recursion (the source loop is an unbounded `while`). -/
def classFetchLoop {α : Type} (processRec : α → ServerState → ServerState)
    (accepts : α → Bool) (pages : ℕ → PageResp α) :
    ℕ → ℕ → ServerState → ℕ → List ℕ → FetchLoopResult
  | 0, _, st, processed, reqs =>
    { st := st, processed := processed, pagesRequested := reqs,
      errorCode? := none, fuelExhausted := true }
  | fuel + 1, page, st, processed, reqs =>
    match pages page with
    | .httpError code =>
      { st := st, processed := processed, pagesRequested := reqs ++ [page],
        errorCode? := some code, fuelExhausted := false }
    | .ok records pagination? =>
      if records.isEmpty then
        { st := st, processed := processed, pagesRequested := reqs ++ [page],
          errorCode? := none, fuelExhausted := false }
      else
        let st' := records.foldl (fun s v => processRec v s) st
        let processed' := processed + (records.filter accepts).length
        match pagination? with
        | some pg =>
          if pg.effectiveTotalPages ≤ page then
            { st := st', processed := processed', pagesRequested := reqs ++ [page],
              errorCode? := none, fuelExhausted := false }
          else
            classFetchLoop processRec accepts pages fuel (page + 1) st' processed'
              (reqs ++ [page])
        | none =>
          if records.length < 100 then
            { st := st', processed := processed', pagesRequested := reqs ++ [page],
              errorCode? := none, fuelExhausted := false }
          else
            classFetchLoop processRec accepts pages fuel (page + 1) st' processed'
              (reqs ++ [page])

/-- One entry of the `recentPollResults` operational ring buffer. -/
structure PollOutcome where
  timestamp : ℕ
  tclass : String
  success : Bool
  vehicleCount? : Option ℕ
  errorCode? : Option ℕ
deriving DecidableEq

def MAX_POLL_RESULTS : ℕ := 50

/-- `addPollResult`: unshift, then pop beyond `MAX_POLL_RESULTS` entries. -/
def addPollResult (rs : List PollOutcome) (r : PollOutcome) : List PollOutcome :=
  (r :: rs).take MAX_POLL_RESULTS

/-- The two telemetry classes a poll cycle runs. -/
inductive TClass where
  | vehicles
  | assets
deriving DecidableEq

/-- Environment of a poll cycle: the upstream credential and per-class page
responses, the broadcast wiring, the wall clock, and the pagination fuel. -/
structure PollEnv where
  apiKey? : Option String
  vehiclePages : ℕ → PageResp RawVehicle
  assetPages : ℕ → PageResp RawAsset
  flags : PollerEnvFlags
  now : ℕ
  fuel : ℕ

/-- Whole-process state seen by the poller: the shared server state, the poll
result ring, and the pending work of an in-flight cycle (`none` = the
`isPolling` flag is down). -/
structure SysState where
  server : ServerState
  pollResults : List PollOutcome
  inflight : Option (List TClass)
deriving DecidableEq

def SysState.busy (s : SysState) : Bool := s.inflight.isSome

/-- `fetchVehicleLocations`: skip silently without an API key; otherwise run the
pagination loop, recording a failed outcome on a transport error and a
successful outcome with the processed count otherwise. -/
def fetchVehicleLocationsRun (env : PollEnv) (s : SysState) : SysState :=
  match env.apiKey? with
  | none => s
  | some _ =>
    let r := classFetchLoop (processVehicleEntry env.flags env.now)
      (fun v => (normalizeVehicleRecord env.now v).isSome) env.vehiclePages
      env.fuel 1 s.server 0 []
    match r.errorCode? with
    | some code =>
      { s with server := r.st,
               pollResults := addPollResult s.pollResults
                 { timestamp := env.now, tclass := "vehicles", success := false,
                   vehicleCount? := none, errorCode? := some code } }
    | none =>
      if r.fuelExhausted then { s with server := r.st }
      else
        { s with server := r.st,
                 pollResults := addPollResult s.pollResults
                   { timestamp := env.now, tclass := "vehicles", success := true,
                     vehicleCount? := some r.processed, errorCode? := none } }

/-- `fetchAssetLocations`: as for vehicles, but a 404 means the account has no
asset feature and is recorded as a successful empty outcome. -/
def fetchAssetLocationsRun (env : PollEnv) (s : SysState) : SysState :=
  match env.apiKey? with
  | none => s
  | some _ =>
    let r := classFetchLoop (processAssetEntry env.flags env.now)
      (fun a => (normalizeAssetRecord env.now a).isSome) env.assetPages
      env.fuel 1 s.server 0 []
    match r.errorCode? with
    | some code =>
      if code = 404 then
        { s with server := r.st,
                 pollResults := addPollResult s.pollResults
                   { timestamp := env.now, tclass := "assets", success := true,
                     vehicleCount? := some 0, errorCode? := none } }
      else
        { s with server := r.st,
                 pollResults := addPollResult s.pollResults
                   { timestamp := env.now, tclass := "assets", success := false,
                     vehicleCount? := none, errorCode? := some code } }
    | none =>
      if r.fuelExhausted then { s with server := r.st }
      else
        { s with server := r.st,
                 pollResults := addPollResult s.pollResults
                   { timestamp := env.now, tclass := "assets", success := true,
                     vehicleCount? := some r.processed, errorCode? := none } }

def runClass (env : PollEnv) (c : TClass) (s : SysState) : SysState :=
  match c with
  | .vehicles => fetchVehicleLocationsRun env s
  | .assets => fetchAssetLocationsRun env s

/-- `pollAll`'s entry point, fired by the interval timer or by `pollNow`: when
`isPolling` is up the invocation returns immediately (a lost, not deferred,
trigger); otherwise the flag goes up and the two class attempts become the
cycle's pending work (the body suspends at its first `await`). -/
def pollTrigger (s : SysState) : SysState :=
  if s.inflight.isSome then s
  else { s with inflight := some [TClass.vehicles, TClass.assets] }

/-- One cooperative scheduling step of an in-flight cycle: run the next class
attempt, or — after both attempts — clear the flag (the `finally` block). -/
def pollStep (env : PollEnv) (s : SysState) : SysState :=
  match s.inflight with
  | none => s
  | some [] => { s with inflight := none }
  | some (c :: rest) => { runClass env c s with inflight := some rest }

/-- Run an in-flight cycle to completion: all remaining class attempts, then
the `finally` clearing `isPolling`. -/
def completeCycle (env : PollEnv) (s : SysState) : SysState :=
  match s.inflight with
  | none => s
  | some cs => { cs.foldl (fun t c => runClass env c t) s with inflight := none }

/-! ## Concrete states, payloads and records used by the claims -/

/-- Process state at startup: empty maps, tables and caches. -/
def emptyServerState : ServerState :=
  { lastUpdateTime := [], lastKnownCoords := [], locationCache := none,
    metadataCache := [], dbVehicles := [], dbLocations := [], broadcasts := [],
    webhookLogCount := 0 }

/-- A webhook object body with every recognized field absent. -/
def emptyBody : WebhookBody :=
  { action? := none, vehicle_id? := none, vehicle_number? := none, vehicle? := none,
    lat? := none, lon? := none, latitude? := none, longitude? := none,
    location? := none, current_location? := none, speed? := none, bearing? := none,
    heading? := none, type? := none, event_type? := none, status? := none,
    located_at? := none, timestamp? := none, otherKeys := [] }

/-- A format-1 location event: `{action, vehicle_id, lat, lon}`. -/
def mkLocationEvent (v : String) (lat lon : ℚ) : WebhookBody :=
  { emptyBody with action? := some "vehicle_location_updated",
                   vehicle_id? := some v, lat? := some lat, lon? := some lon }

/-- A `current_location` object with every field absent. -/
def emptyVehicleLoc : VehicleLoc :=
  { lat? := none, latitude? := none, lon? := none, longitude? := none,
    speed? := none, kph? := none, bearing? := none, heading? := none,
    located_at? := none, vehicle_state? := none }

/-- An asset location object with every field absent. -/
def emptyAssetLoc : AssetLoc :=
  { lat? := none, latitude? := none, lon? := none, longitude? := none,
    ground_speed_kph? := none, speed? := none, bearing? := none, heading? := none,
    located_at? := none, moving? := none }

/-- Location object reporting a plain `speed` of 100 (no kph-named field, no
flag, no status field) at (40, -96). -/
def speedOnlyAssetLoc : AssetLoc :=
  { emptyAssetLoc with lat? := some 40, lon? := some (-96), speed? := some 100 }

/-- Raw asset whose record carries `speedOnlyAssetLoc` as `current_location`. -/
def assetSpeedOnly : RawAsset :=
  { id? := some "a1", number? := none, name? := none, gatewayLastLocation? := none,
    current_location? := some speedOnlyAssetLoc, last_location? := none,
    location? := none }

/-- Poller location object for `v1` at (10, 20). -/
def v1PollLoc : VehicleLoc := { emptyVehicleLoc with lat? := some 10, lon? := some 20 }

/-- Raw poller vehicle record for `v1` at (10, 20). -/
def pollV1Record : RawVehicle :=
  { id? := some "v1", number? := none, name? := none,
    current_location? := some v1PollLoc }

/-- The normalized reading of `pollV1Record` at t=30000. -/
def pollV1Canon : CanonReading :=
  { vehicleId := "v1", latitude := 10, longitude := 20, speed := 0, heading := 0,
    status := "stopped", timestamp := TimeVal.fromMillis 30000 }

/-- State where `v1` passed the gate at t=30000 at (10, 20) and the
latest-locations cache holds a (stale) value. -/
def throttledCacheState : ServerState :=
  { emptyServerState with
    locationCache := some ([], 5),
    lastUpdateTime := [("v1", 30000)], lastKnownCoords := [("v1", (10, 20))] }

/-- State where `v1`'s last gate acceptance is far in the past (t=0) but its
last accepted coordinates are (10, 20). -/
def spatialGateState : ServerState :=
  { emptyServerState with
    lastUpdateTime := [("v1", 0)],
    lastKnownCoords := [("v1", (10, 20))] }

/-- State where an administrator set a custom display name (and color) for
`v1`, in both the vehicles table and the metadata cache. -/
def customNameState : ServerState :=
  { emptyServerState with
    metadataCache := [("v1", { name := "Truck 7", color := "#ff0000" })],
    dbVehicles := [{ vehicleId := "v1", name := "Truck 7", color := "#ff0000" }] }

/-- State where an administrator kept the default name `v1` but set a custom
color, in both the vehicles table and the metadata cache. -/
def customColorState : ServerState :=
  { emptyServerState with
    metadataCache := [("v1", { name := "v1", color := "#ff0000" })],
    dbVehicles := [{ vehicleId := "v1", name := "v1", color := "#ff0000" }] }

/-- A webhook body with a non-location action but valid coordinates. -/
def alertBody : WebhookBody :=
  { mkLocationEvent "v1" 1 2 with action? := some "vehicle_alert" }

/-- Poller location object at (40, 20) carrying both a `speed` field (60) and
a nonzero `kph` field (100): the presence of `kph` triggers the conversion and
the base taken is the `speed` field. -/
def bothSpeedVehicleLoc : VehicleLoc :=
  { emptyVehicleLoc with
    lat? := some 40, lon? := some 20, speed? := some 60, kph? := some 100 }

/-- Raw poller vehicle record carrying `bothSpeedVehicleLoc`. -/
def bothSpeedVehicle : RawVehicle :=
  { id? := some "b1", number? := none, name? := none,
    current_location? := some bothSpeedVehicleLoc }

/-- Poller location object with both coordinates exactly zero. -/
def zeroVehicleLoc : VehicleLoc :=
  { emptyVehicleLoc with lat? := some 0, lon? := some 0 }

/-- Raw poller vehicle record reporting the (0,0) no-fix sentinel. -/
def zeroVehicle : RawVehicle :=
  { id? := some "z", number? := none, name? := none,
    current_location? := some zeroVehicleLoc }

/-- A simulated upstream with three single-record pages and an explicit
`total_pages = 3`. -/
def constPages3 : ℕ → PageResp ℕ := fun p => .ok [p] (some ⟨some 3⟩)

/-- A system state whose poll cycle is in flight (both class attempts done,
`finally` not yet run). -/
def busySysState : SysState :=
  { server := emptyServerState, pollResults := [], inflight := some [] }

/-! ## Shared lemmas -/

theorem alGet_alSet_self {α : Type} (m : List (String × α)) (k : String) (v : α) :
    alGet (alSet m k v) k = some v := by
  induction m with
  | nil => simp [alSet, alGet, List.find?]
  | cons p rest ih =>
    obtain ⟨k', v'⟩ := p
    by_cases h : (k' == k)
    · simp [alSet, h, alGet, List.find?]
    · simp only [alSet, if_neg h]
      simpa [alGet, List.find?, h] using ih

theorem shouldProcess_false_frame (now : ℕ) (m : List (String × ℕ)) (v : String)
    (h : (shouldProcessLocationUpdate now m v).1 = false) :
    (shouldProcessLocationUpdate now m v).2 = m := by
  by_cases hc : LOCATION_UPDATE_INTERVAL_MS ≤ now - (alGet m v).getD 0
  · simp [shouldProcessLocationUpdate, hc] at h
  · simp [shouldProcessLocationUpdate, hc]

theorem shouldProcess_true_set (now : ℕ) (m : List (String × ℕ)) (v : String)
    (h : (shouldProcessLocationUpdate now m v).1 = true) :
    (shouldProcessLocationUpdate now m v).2 = alSet m v now := by
  by_cases hc : LOCATION_UPDATE_INTERVAL_MS ≤ now - (alGet m v).getD 0
  · simp [shouldProcessLocationUpdate, hc]
  · simp [shouldProcessLocationUpdate, hc] at h

theorem hasChanged_false_frame (m : List (String × (ℚ × ℚ))) (v : String) (lat lon : ℚ)
    (h : (hasLocationChanged m v lat lon).1 = false) :
    (hasLocationChanged m v lat lon).2 = m := by
  unfold hasLocationChanged at h ⊢
  cases hg : alGet m v with
  | none => simp [hg] at h
  | some pl =>
    obtain ⟨plat, plon⟩ := pl
    by_cases hc : |plat - lat| < coordThreshold ∧ |plon - lon| < coordThreshold
    · simp [hg, hc]
    · simp [hg, hc] at h

theorem hasChanged_true_set (m : List (String × (ℚ × ℚ))) (v : String) (lat lon : ℚ)
    (h : (hasLocationChanged m v lat lon).1 = true) :
    (hasLocationChanged m v lat lon).2 = alSet m v (lat, lon) := by
  unfold hasLocationChanged at h ⊢
  cases hg : alGet m v with
  | none => simp [hg]
  | some pl =>
    obtain ⟨plat, plon⟩ := pl
    by_cases hc : |plat - lat| < coordThreshold ∧ |plon - lon| < coordThreshold
    · simp [hg, hc] at h
    · simp [hg, hc]

theorem webhookStore_gate_frame (now : ℕ) (b : WebhookBody) (lat lon : ℚ)
    (st : ServerState) :
    (webhookStore now b lat lon st).lastUpdateTime = st.lastUpdateTime ∧
    (webhookStore now b lat lon st).lastKnownCoords = st.lastKnownCoords := by
  by_cases hc : ((getVehicleMetadata st (extractWebhookVehicleId b)).name ==
      extractWebhookVehicleId b)
  · simp [webhookStore, hc]
  · simp [webhookStore, hc]

theorem webhookStore_dbLocations (now : ℕ) (b : WebhookBody) (lat lon : ℚ)
    (st : ServerState) :
    (webhookStore now b lat lon st).dbLocations =
      st.dbLocations ++ [webhookRow now b lat lon] := by
  by_cases hc : ((getVehicleMetadata st (extractWebhookVehicleId b)).name ==
      extractWebhookVehicleId b)
  · simp [webhookStore, hc]
  · simp [webhookStore, hc]

theorem webhookStore_meta_frame (now : ℕ) (b : WebhookBody) (lat lon : ℚ)
    (st : ServerState)
    (h : (getVehicleMetadata st (extractWebhookVehicleId b)).name ≠
      extractWebhookVehicleId b) :
    (webhookStore now b lat lon st).dbVehicles = st.dbVehicles ∧
    (webhookStore now b lat lon st).metadataCache = st.metadataCache := by
  have hc : ((getVehicleMetadata st (extractWebhookVehicleId b)).name ==
      extractWebhookVehicleId b) = false := by simpa using h
  simp [webhookStore, hc]

/-- Exhaustive description of what the webhook handler does with an object
body: an early exit leaving everything but the debug ring unchanged, a
spatial-dedup rejection that has nonetheless stamped the throttle map, or full
acceptance. -/
theorem handle_object_cases (now : ℕ) (b : WebhookBody) (st : ServerState) :
    ((handleMotiveWebhook now (.objectPayload b) st).2 = bumpWebhookLog st ∧
      (handleMotiveWebhook now (.objectPayload b) st).1 ≠ WebhookOutcome.stored ∧
      (handleMotiveWebhook now (.objectPayload b) st).1 ≠ WebhookOutcome.unchangedSkipped)
    ∨ ((handleMotiveWebhook now (.objectPayload b) st).1 = WebhookOutcome.unchangedSkipped ∧
       (handleMotiveWebhook now (.objectPayload b) st).2 =
         { bumpWebhookLog st with
           lastUpdateTime := alSet st.lastUpdateTime (extractWebhookVehicleId b) now })
    ∨ (∃ lat lon, extractWebhookLatLon b = some (lat, lon) ∧
       (handleMotiveWebhook now (.objectPayload b) st).1 = WebhookOutcome.stored ∧
       (handleMotiveWebhook now (.objectPayload b) st).2 =
         webhookStore now b lat lon
           { bumpWebhookLog st with
             lastUpdateTime := alSet st.lastUpdateTime (extractWebhookVehicleId b) now,
             lastKnownCoords := alSet st.lastKnownCoords (extractWebhookVehicleId b)
               (lat, lon) }) := by
  unfold handleMotiveWebhook
  by_cases he : b.isEmptyObject
  · left; simp [he]
  · by_cases ha : (!(b.action? == some "vehicle_location_received") &&
        !(b.action? == some "vehicle_location_updated"))
    · left; simp [he, ha]
    · cases hll : extractWebhookLatLon b with
      | none => left; simp [he, ha, hll]
      | some p =>
        obtain ⟨lat, lon⟩ := p
        by_cases hg1 : (shouldProcessLocationUpdate now st.lastUpdateTime
            (extractWebhookVehicleId b)).1
        · by_cases hg2 : (hasLocationChanged st.lastKnownCoords
              (extractWebhookVehicleId b) lat lon).1
          · right; right
            refine ⟨lat, lon, rfl, ?_⟩
            simp [he, ha, hll, hg1, hg2, shouldProcess_true_set _ _ _ hg1,
              hasChanged_true_set _ _ _ _ hg2, bumpWebhookLog]
          · right; left
            have hg2' : (hasLocationChanged st.lastKnownCoords
                (extractWebhookVehicleId b) lat lon).1 = false := by
              simpa using hg2
            simp [he, ha, hll, hg1, hg2', shouldProcess_true_set _ _ _ hg1,
              hasChanged_false_frame _ _ _ _ hg2', bumpWebhookLog]
        · left
          have hg1' : (shouldProcessLocationUpdate now st.lastUpdateTime
              (extractWebhookVehicleId b)).1 = false := by simpa using hg1
          simp [he, ha, hll, hg1', shouldProcess_false_frame _ _ _ hg1', bumpWebhookLog]

theorem extractId_mk (v : String) (lat lon : ℚ) (hv : v ≠ "") :
    extractWebhookVehicleId (mkLocationEvent v lat lon) = v := by
  simp [extractWebhookVehicleId, mkLocationEvent, emptyBody, truthyStr, hv]

/-- A format-1 location event rejected by the time throttle: acknowledged with
no state change beyond the debug ring. -/
theorem handle_mk_throttled (now : ℕ) (v : String) (lat lon : ℚ) (st : ServerState)
    (hv : v ≠ "")
    (hg1 : (shouldProcessLocationUpdate now st.lastUpdateTime v).1 = false) :
    handleMotiveWebhook now (.objectPayload (mkLocationEvent v lat lon)) st =
      (.throttled, bumpWebhookLog st) := by
  have hid := extractId_mk v lat lon hv
  have hmt : extractWebhookLatLon (mkLocationEvent v lat lon) = some (lat, lon) := rfl
  have hempty : (mkLocationEvent v lat lon).isEmptyObject = false := rfl
  have hact : ((!((mkLocationEvent v lat lon).action? == some "vehicle_location_received")) &&
      (!((mkLocationEvent v lat lon).action? == some "vehicle_location_updated"))) = false := rfl
  unfold handleMotiveWebhook
  simp only [hempty, hact, hmt, hid]
  simp [hg1, shouldProcess_false_frame _ _ _ hg1, bumpWebhookLog]

/-- A format-1 location event passing the time throttle but rejected by the
spatial dedup: acknowledged, with the throttle stamp nonetheless written. -/
theorem handle_mk_spatial_skip (now : ℕ) (v : String) (lat lon : ℚ) (st : ServerState)
    (hv : v ≠ "")
    (hg1 : (shouldProcessLocationUpdate now st.lastUpdateTime v).1 = true)
    (hg2 : (hasLocationChanged st.lastKnownCoords v lat lon).1 = false) :
    handleMotiveWebhook now (.objectPayload (mkLocationEvent v lat lon)) st =
      (.unchangedSkipped,
        { bumpWebhookLog st with lastUpdateTime := alSet st.lastUpdateTime v now }) := by
  have hid := extractId_mk v lat lon hv
  have hmt : extractWebhookLatLon (mkLocationEvent v lat lon) = some (lat, lon) := rfl
  have hempty : (mkLocationEvent v lat lon).isEmptyObject = false := rfl
  have hact : ((!((mkLocationEvent v lat lon).action? == some "vehicle_location_received")) &&
      (!((mkLocationEvent v lat lon).action? == some "vehicle_location_updated"))) = false := rfl
  unfold handleMotiveWebhook
  simp only [hempty, hact, hmt, hid]
  simp [hg1, hg2, shouldProcess_true_set _ _ _ hg1, hasChanged_false_frame _ _ _ _ hg2,
    bumpWebhookLog]

/-- A format-1 location event accepted by both gate checks: stored, with both
gate maps written. -/
theorem handle_mk_stored (now : ℕ) (v : String) (lat lon : ℚ) (st : ServerState)
    (hv : v ≠ "")
    (hg1 : (shouldProcessLocationUpdate now st.lastUpdateTime v).1 = true)
    (hg2 : (hasLocationChanged st.lastKnownCoords v lat lon).1 = true) :
    handleMotiveWebhook now (.objectPayload (mkLocationEvent v lat lon)) st =
      (.stored, webhookStore now (mkLocationEvent v lat lon) lat lon
        { bumpWebhookLog st with
          lastUpdateTime := alSet st.lastUpdateTime v now,
          lastKnownCoords := alSet st.lastKnownCoords v (lat, lon) }) := by
  have hid := extractId_mk v lat lon hv
  have hmt : extractWebhookLatLon (mkLocationEvent v lat lon) = some (lat, lon) := rfl
  have hempty : (mkLocationEvent v lat lon).isEmptyObject = false := rfl
  have hact : ((!((mkLocationEvent v lat lon).action? == some "vehicle_location_received")) &&
      (!((mkLocationEvent v lat lon).action? == some "vehicle_location_updated"))) = false := rfl
  unfold handleMotiveWebhook
  simp only [hempty, hact, hmt, hid]
  simp [hg1, hg2, shouldProcess_true_set _ _ _ hg1, hasChanged_true_set _ _ _ _ hg2,
    bumpWebhookLog]

/-- Whenever the webhook handler reports `stored`, exactly one row — built by
`webhookRow` from the extracted fields — was appended to the locations table. -/
theorem handle_stored_row (now : ℕ) (b : WebhookBody) (st : ServerState)
    (h : (handleMotiveWebhook now (.objectPayload b) st).1 = WebhookOutcome.stored) :
    ∃ lat lon, extractWebhookLatLon b = some (lat, lon) ∧
      (handleMotiveWebhook now (.objectPayload b) st).2.dbLocations =
        st.dbLocations ++ [webhookRow now b lat lon] := by
  rcases handle_object_cases now b st with ⟨_, hne, _⟩ | ⟨hu, _⟩ | ⟨lat, lon, hll, _, heq⟩
  · exact absurd h hne
  · exact absurd (h.symm.trans hu) (by decide)
  · refine ⟨lat, lon, hll, ?_⟩
    rw [heq, webhookStore_dbLocations]
    rfl

/-! ## C10 — non-location webhook actions are acknowledged and have no effect -/

/-- C10: for every webhook JSON object body whose `action` field is neither
"vehicle_location_received" nor "vehicle_location_updated" (including when it
is absent), the handler responds with HTTP 200 and performs no persistence, no
broadcast, and no change to gate or cache state. -/
theorem webhook_nonlocation_action_noop (now : ℕ) (b : WebhookBody) (st : ServerState)
    (h1 : b.action? ≠ some "vehicle_location_received")
    (h2 : b.action? ≠ some "vehicle_location_updated") :
    (handleMotiveWebhook now (.objectPayload b) st).1.httpStatus = 200 ∧
    (handleMotiveWebhook now (.objectPayload b) st).2.dbLocations = st.dbLocations ∧
    (handleMotiveWebhook now (.objectPayload b) st).2.dbVehicles = st.dbVehicles ∧
    (handleMotiveWebhook now (.objectPayload b) st).2.lastUpdateTime = st.lastUpdateTime ∧
    (handleMotiveWebhook now (.objectPayload b) st).2.lastKnownCoords = st.lastKnownCoords ∧
    (handleMotiveWebhook now (.objectPayload b) st).2.locationCache = st.locationCache ∧
    (handleMotiveWebhook now (.objectPayload b) st).2.metadataCache = st.metadataCache ∧
    (handleMotiveWebhook now (.objectPayload b) st).2.broadcasts = st.broadcasts := by
  have hb1 : (b.action? == some "vehicle_location_received") = false := by
    simpa using h1
  have hb2 : (b.action? == some "vehicle_location_updated") = false := by
    simpa using h2
  unfold handleMotiveWebhook
  by_cases he : b.isEmptyObject
  · simp [he, bumpWebhookLog, WebhookOutcome.httpStatus]
  · simp [he, hb1, hb2, bumpWebhookLog, WebhookOutcome.httpStatus]

/-- Witness for C10 at a concrete non-location event carrying valid coordinates. -/
theorem webhook_nonlocation_action_noop_witness :
    (alertBody.action? ≠ some "vehicle_location_received" ∧
      alertBody.action? ≠ some "vehicle_location_updated") ∧
    ((handleMotiveWebhook 0 (.objectPayload alertBody) emptyServerState).1.httpStatus = 200 ∧
     (handleMotiveWebhook 0 (.objectPayload alertBody) emptyServerState).2.dbLocations =
       emptyServerState.dbLocations ∧
     (handleMotiveWebhook 0 (.objectPayload alertBody) emptyServerState).2.dbVehicles =
       emptyServerState.dbVehicles ∧
     (handleMotiveWebhook 0 (.objectPayload alertBody) emptyServerState).2.lastUpdateTime =
       emptyServerState.lastUpdateTime ∧
     (handleMotiveWebhook 0 (.objectPayload alertBody) emptyServerState).2.lastKnownCoords =
       emptyServerState.lastKnownCoords ∧
     (handleMotiveWebhook 0 (.objectPayload alertBody) emptyServerState).2.locationCache =
       emptyServerState.locationCache ∧
     (handleMotiveWebhook 0 (.objectPayload alertBody) emptyServerState).2.metadataCache =
       emptyServerState.metadataCache ∧
     (handleMotiveWebhook 0 (.objectPayload alertBody) emptyServerState).2.broadcasts =
       emptyServerState.broadcasts) :=
  ⟨⟨by decide, by decide⟩,
    webhook_nonlocation_action_noop 0 alertBody emptyServerState (by decide) (by decide)⟩

/-! ## C1 — zero-coordinate rejection -/

/-- C1 counterexample: the legacy webhook handler persists a reading with
latitude and longitude both exactly 0 (the poll paths reject it, the webhook
path has no such check). -/
theorem webhook_persists_zero_coords :
    (handleMotiveWebhook 30000 (.objectPayload (mkLocationEvent "v1" 0 0))
      emptyServerState).1 = WebhookOutcome.stored ∧
    ((handleMotiveWebhook 30000 (.objectPayload (mkLocationEvent "v1" 0 0))
      emptyServerState).2.dbLocations.map
        (fun r => (r.vehicleId, r.latitude, r.longitude))) = [("v1", (0, 0))] := by
  decide

/-- C1 (amended): a raw record whose extracted coordinates are exactly (0,0) is
dropped — producing no state change at all — on the poll-cycle vehicle path and
on the poll-cycle asset path; the legacy webhook handler performs no
zero-coordinate check and can persist such a record. -/
theorem zero_coords_rejected_on_poll_paths :
    (∀ (flags : PollerEnvFlags) (now : ℕ) (v : RawVehicle) (loc : VehicleLoc)
        (st : ServerState),
      v.current_location? = some loc →
      (loc.lat?).orElse (fun _ => loc.latitude?) = some 0 →
      (loc.lon?).orElse (fun _ => loc.longitude?) = some 0 →
      processVehicleEntry flags now v st = st) ∧
    (∀ (flags : PollerEnvFlags) (now : ℕ) (a : RawAsset) (loc : AssetLoc)
        (st : ServerState),
      assetLocation a = some loc →
      (loc.lat?).orElse (fun _ => loc.latitude?) = some 0 →
      (loc.lon?).orElse (fun _ => loc.longitude?) = some 0 →
      processAssetEntry flags now a st = st) ∧
    (∃ (now : ℕ) (p : WebhookPayload) (st : ServerState),
      (handleMotiveWebhook now p st).1 = WebhookOutcome.stored ∧
      (handleMotiveWebhook now p st).2.dbLocations.map
        (fun r => (r.latitude, r.longitude)) = [(0, 0)]) := by
  refine ⟨?_, ?_, ?_⟩
  · intro flags now v loc st hcl hlat hlon
    simp [processVehicleEntry, normalizeVehicleRecord, hcl, hlat, hlon]
  · intro flags now a loc st hcl hlat hlon
    simp [processAssetEntry, normalizeAssetRecord, hcl, hlat, hlon]
  · exact ⟨30000, .objectPayload (mkLocationEvent "v1" 0 0), emptyServerState,
      by decide, by decide⟩

/-- Witness for C1 (amended) at a concrete (0,0) poller record. -/
theorem zero_coords_rejected_on_poll_paths_witness :
    (zeroVehicle.current_location? = some zeroVehicleLoc ∧
      (zeroVehicleLoc.lat?).orElse (fun _ => zeroVehicleLoc.latitude?) = some 0 ∧
      (zeroVehicleLoc.lon?).orElse (fun _ => zeroVehicleLoc.longitude?) = some 0) ∧
    processVehicleEntry ⟨true⟩ 0 zeroVehicle emptyServerState = emptyServerState :=
  ⟨⟨rfl, rfl, rfl⟩,
    zero_coords_rejected_on_poll_paths.1 ⟨true⟩ 0 zeroVehicle zeroVehicleLoc
      emptyServerState rfl rfl rfl⟩

/-! ## C5 — when the gate mutates its per-vehicle state -/

/-- C5 counterexample: a reading rejected by the spatial-dedup check (so not
fully accepted) still mutates the stored per-vehicle throttle timestamp. -/
theorem gate_mutates_on_spatial_rejection :
    (handleMotiveWebhook 30000 (.objectPayload (mkLocationEvent "v1" 10 20))
      spatialGateState).1 = WebhookOutcome.unchangedSkipped ∧
    (handleMotiveWebhook 30000 (.objectPayload (mkLocationEvent "v1" 10 20))
      spatialGateState).2.lastUpdateTime = [("v1", 30000)] ∧
    spatialGateState.lastUpdateTime = [("v1", 0)] := by
  have hg1 : (shouldProcessLocationUpdate 30000 spatialGateState.lastUpdateTime "v1").1 =
      true := by decide
  have hcoords : alGet spatialGateState.lastKnownCoords "v1" = some (10, 20) := by decide
  have hg2 : (hasLocationChanged spatialGateState.lastKnownCoords "v1" 10 20).1 = false := by
    unfold hasLocationChanged
    rw [hcoords]
    norm_num [coordThreshold]
  have h := handle_mk_spatial_skip 30000 "v1" 10 20 spatialGateState (by decide) hg1 hg2
  rw [h]
  refine ⟨rfl, ?_, rfl⟩
  decide

/-- C5 (amended): each gate check updates its own stored state exactly when
that check passes: the throttle timestamp is written whenever the time check
passes — even if the spatial check then rejects the reading, as on every
`unchangedSkipped` exit of the handler — and the stored coordinates are
written whenever the spatial check passes; only a reading rejected by the time
throttle leaves all gate state unchanged. -/
theorem gate_state_update_per_check :
    (∀ now m v, (shouldProcessLocationUpdate now m v).1 = false →
      (shouldProcessLocationUpdate now m v).2 = m) ∧
    (∀ now m v, (shouldProcessLocationUpdate now m v).1 = true →
      (shouldProcessLocationUpdate now m v).2 = alSet m v now) ∧
    (∀ m v lat lon, (hasLocationChanged m v lat lon).1 = false →
      (hasLocationChanged m v lat lon).2 = m) ∧
    (∀ m v lat lon, (hasLocationChanged m v lat lon).1 = true →
      (hasLocationChanged m v lat lon).2 = alSet m v (lat, lon)) ∧
    (∀ now b st, (handleMotiveWebhook now (.objectPayload b) st).1 =
        WebhookOutcome.unchangedSkipped →
      (handleMotiveWebhook now (.objectPayload b) st).2.lastUpdateTime =
        alSet st.lastUpdateTime (extractWebhookVehicleId b) now ∧
      (handleMotiveWebhook now (.objectPayload b) st).2.lastKnownCoords =
        st.lastKnownCoords) := by
  refine ⟨shouldProcess_false_frame, shouldProcess_true_set, hasChanged_false_frame,
    hasChanged_true_set, ?_⟩
  intro now b st h
  rcases handle_object_cases now b st with ⟨_, _, hne⟩ | ⟨_, heq⟩ | ⟨lat, lon, _, hst, _⟩
  · exact absurd h hne
  · rw [heq]; exact ⟨rfl, rfl⟩
  · exact absurd (h.symm.trans hst) (by decide)

/-- Witness for C5 (amended): a time-throttled reading leaves the map intact. -/
theorem gate_state_update_per_check_witness :
    (shouldProcessLocationUpdate 0 [("v1", 0)] "v1").1 = false ∧
    (shouldProcessLocationUpdate 0 [("v1", 0)] "v1").2 = [("v1", 0)] :=
  ⟨by decide, gate_state_update_per_check.1 0 [("v1", 0)] "v1" (by decide)⟩

/-! ## C4 — custom metadata survives automatic ingestion defaulting -/

/-- C4 counterexample: an administrator-set custom color stored under the
default name (name = id) is overwritten back to the default blue by a webhook
ingestion for that id. -/
theorem custom_color_overwritten_by_webhook :
    customColorState.dbVehicles =
      [{ vehicleId := "v1", name := "v1", color := "#ff0000" }] ∧
    (handleMotiveWebhook 30000 (.objectPayload (mkLocationEvent "v1" 10 20))
      customColorState).2.dbVehicles =
      [{ vehicleId := "v1", name := "v1", color := "#3b82f6" }] := by
  decide

/-- C4 (amended): automatic ingestion defaulting preserves custom metadata
exactly when the stored display name differs from the vehicle id: the webhook
handler skips its upsert (leaving table and cache untouched) whenever the
cached name differs from the id, and the poll paths never upsert once a row for
the id exists; a custom color stored under the default name, however, is
overwritten back to the default by webhook ingestion. -/
theorem ingestion_defaulting_preserves_custom_name :
    (∀ now (b : WebhookBody) (st : ServerState),
      (getVehicleMetadata st (extractWebhookVehicleId b)).name ≠
        extractWebhookVehicleId b →
      (handleMotiveWebhook now (.objectPayload b) st).2.dbVehicles = st.dbVehicles ∧
      (handleMotiveWebhook now (.objectPayload b) st).2.metadataCache =
        st.metadataCache) ∧
    (∀ flags now (v : RawVehicle) (st : ServerState) r,
      normalizeVehicleRecord now v = some r →
      (getVehicleRow st.dbVehicles r.vehicleId).isSome →
      (processVehicleEntry flags now v st).dbVehicles = st.dbVehicles) ∧
    (∀ flags now (a : RawAsset) (st : ServerState) r,
      normalizeAssetRecord now a = some r →
      (getVehicleRow st.dbVehicles r.vehicleId).isSome →
      (processAssetEntry flags now a st).dbVehicles = st.dbVehicles) := by
  refine ⟨?_, ?_, ?_⟩
  · intro now b st h
    rcases handle_object_cases now b st with ⟨heq, _, _⟩ | ⟨_, heq⟩ | ⟨lat, lon, _, _, heq⟩
    · rw [heq]; exact ⟨rfl, rfl⟩
    · rw [heq]; exact ⟨rfl, rfl⟩
    · rw [heq]
      exact webhookStore_meta_frame now b lat lon _ h
  · intro flags now v st r hn hs
    obtain ⟨row, hrow⟩ := Option.isSome_iff_exists.mp hs
    by_cases hb : flags.broadcastSet <;>
      simp [processVehicleEntry, hn, hrow, hb]
  · intro flags now a st r hn hs
    obtain ⟨row, hrow⟩ := Option.isSome_iff_exists.mp hs
    by_cases hb : flags.broadcastSet <;>
      simp [processAssetEntry, hn, hrow, hb]

/-- Witness for C4 (amended): a custom-named vehicle survives a webhook
ingestion untouched. -/
theorem ingestion_defaulting_preserves_custom_name_witness :
    (getVehicleMetadata customNameState
        (extractWebhookVehicleId (mkLocationEvent "v1" 10 20))).name ≠
      extractWebhookVehicleId (mkLocationEvent "v1" 10 20) ∧
    (handleMotiveWebhook 30000 (.objectPayload (mkLocationEvent "v1" 10 20))
      customNameState).2.dbVehicles = customNameState.dbVehicles ∧
    (handleMotiveWebhook 30000 (.objectPayload (mkLocationEvent "v1" 10 20))
      customNameState).2.metadataCache = customNameState.metadataCache :=
  ⟨by decide,
    ingestion_defaulting_preserves_custom_name.1 30000 (mkLocationEvent "v1" 10 20)
      customNameState (by decide)⟩

/-! ## C2 — the poll-cycle per-record pipeline -/

/-- C2 counterexample: the poll path persists a record that the dedup/throttle
gate (had it been consulted) would have rejected, and leaves the
latest-locations cache valid (no invalidation) — so the claimed
gate-then-invalidate-on-acceptance pipeline does not hold on the poll path. -/
theorem poll_path_bypasses_gate_and_cache :
    (processVehicleEntry ⟨true⟩ 30000 pollV1Record throttledCacheState).dbLocations.length =
      throttledCacheState.dbLocations.length + 1 ∧
    (processVehicleEntry ⟨true⟩ 30000 pollV1Record throttledCacheState).locationCache =
      some ([], 5) ∧
    (shouldProcessLocationUpdate 30000 throttledCacheState.lastUpdateTime "v1").1 =
      false := by
  decide

/-- C2 (amended): for each raw record of a poll cycle, vehicle existence is
checked with a per-record storage query (`storage.getVehicle`), not the
metadata cache; no dedup/throttle gate is applied; every successfully
normalized record is persisted and (when the broadcast callback is wired)
broadcast; and the latest-locations cache, the metadata cache and the gate
maps are left untouched. -/
theorem poll_record_pipeline_shape :
    ∀ flags now (v : RawVehicle) (st : ServerState) r,
      normalizeVehicleRecord now v = some r →
      (processVehicleEntry flags now v st).dbLocations =
        st.dbLocations ++ [canonRow now r] ∧
      (processVehicleEntry flags now v st).locationCache = st.locationCache ∧
      (processVehicleEntry flags now v st).metadataCache = st.metadataCache ∧
      (processVehicleEntry flags now v st).lastUpdateTime = st.lastUpdateTime ∧
      (processVehicleEntry flags now v st).lastKnownCoords = st.lastKnownCoords ∧
      ((getVehicleRow st.dbVehicles r.vehicleId).isSome →
        (processVehicleEntry flags now v st).dbVehicles = st.dbVehicles) ∧
      (flags.broadcastSet = true →
        (processVehicleEntry flags now v st).broadcasts =
          st.broadcasts ++ [canonMsg r]) := by
  intro flags now v st r hn
  cases hrow : getVehicleRow st.dbVehicles r.vehicleId <;>
    by_cases hb : flags.broadcastSet <;>
      simp [processVehicleEntry, hn, hrow, hb]

/-- Witness for C2 (amended) at the concrete record of the counterexample. -/
theorem poll_record_pipeline_shape_witness :
    normalizeVehicleRecord 30000 pollV1Record = some pollV1Canon ∧
    (processVehicleEntry ⟨true⟩ 30000 pollV1Record throttledCacheState).dbLocations =
      throttledCacheState.dbLocations ++ [canonRow 30000 pollV1Canon] ∧
    (processVehicleEntry ⟨true⟩ 30000 pollV1Record throttledCacheState).locationCache =
      throttledCacheState.locationCache :=
  ⟨by decide,
    (poll_record_pipeline_shape ⟨true⟩ 30000 pollV1Record throttledCacheState pollV1Canon
      (by decide)).1,
    (poll_record_pipeline_shape ⟨true⟩ 30000 pollV1Record throttledCacheState pollV1Canon
      (by decide)).2.1⟩

/-! ## C6 — speed unit normalization -/

/-- C6 counterexample: on the asset poll path a record reporting its speed in
the plain `speed` field (no kilometers-per-hour field name, no flag) is still
multiplied by 0.621371 rather than stored unchanged. -/
theorem asset_speed_converted_without_kph_signal :
    (normalizeAssetRecord 0 assetSpeedOnly).map CanonReading.speed =
      some (100 * kphToMphFactor) ∧
    (100 : ℚ) * kphToMphFactor ≠ 100 :=
  ⟨rfl, by norm_num [kphToMphFactor]⟩

/-- C6 (amended): speed normalization is per-path.  On the vehicle poll path a
record whose location carries a nonzero `kph` field has its base speed
(`speed ?? kph`) multiplied by 0.621371 and a record with no `kph` field keeps
its `speed` field unchanged; on the asset poll path the reported value
(`ground_speed_kph ?? speed ?? 0`) is always multiplied by 0.621371, even when
only the plain `speed` field is present; the webhook path stores the extracted
speed unchanged, with no unit conversion on any field. -/
theorem speed_unit_normalization_per_path :
    (∀ now (v : RawVehicle) (loc : VehicleLoc) (k lat lon : ℚ),
      v.current_location? = some loc →
      (loc.lat?).orElse (fun _ => loc.latitude?) = some lat →
      (loc.lon?).orElse (fun _ => loc.longitude?) = some lon →
      ¬(lat = 0 ∧ lon = 0) →
      loc.kph? = some k → k ≠ 0 →
      (normalizeVehicleRecord now v).map CanonReading.speed =
        some (((loc.speed?).getD k) * kphToMphFactor)) ∧
    (∀ now (v : RawVehicle) (loc : VehicleLoc) (lat lon : ℚ),
      v.current_location? = some loc →
      (loc.lat?).orElse (fun _ => loc.latitude?) = some lat →
      (loc.lon?).orElse (fun _ => loc.longitude?) = some lon →
      ¬(lat = 0 ∧ lon = 0) →
      loc.kph? = none →
      (normalizeVehicleRecord now v).map CanonReading.speed =
        some ((loc.speed?).getD 0)) ∧
    (∀ now (a : RawAsset) (loc : AssetLoc) (lat lon : ℚ),
      assetLocation a = some loc →
      (loc.lat?).orElse (fun _ => loc.latitude?) = some lat →
      (loc.lon?).orElse (fun _ => loc.longitude?) = some lon →
      ¬(lat = 0 ∧ lon = 0) →
      (normalizeAssetRecord now a).map CanonReading.speed =
        some ((((loc.ground_speed_kph?).orElse (fun _ => loc.speed?)).getD 0) *
          kphToMphFactor)) ∧
    (∀ now (b : WebhookBody) (st : ServerState),
      (handleMotiveWebhook now (.objectPayload b) st).1 = WebhookOutcome.stored →
      ∃ row, (handleMotiveWebhook now (.objectPayload b) st).2.dbLocations =
        st.dbLocations ++ [row] ∧ row.speed = extractWebhookSpeed b) := by
  refine ⟨?_, ?_, ?_, ?_⟩
  · intro now v loc k lat lon hcl hlat hlon h0 hk hknz
    cases hsp : loc.speed? with
    | none => simp [normalizeVehicleRecord, hcl, hlat, hlon, h0, hsp, hk, hknz]
    | some s => simp [normalizeVehicleRecord, hcl, hlat, hlon, h0, hsp, hk, hknz]
  · intro now v loc lat lon hcl hlat hlon h0 hk
    simp [normalizeVehicleRecord, hcl, hlat, hlon, h0, hk]
  · intro now a loc lat lon hcl hlat hlon h0
    simp [normalizeAssetRecord, hcl, hlat, hlon, h0]
  · intro now b st h
    obtain ⟨lat, lon, _, hdb⟩ := handle_stored_row now b st h
    exact ⟨webhookRow now b lat lon, hdb, rfl⟩

/-- Witness for C6 (amended): a vehicle-path record carrying both a `speed`
field and a nonzero `kph` field has the `speed` base converted. -/
theorem speed_unit_normalization_per_path_witness :
    (bothSpeedVehicle.current_location? = some bothSpeedVehicleLoc ∧
      (bothSpeedVehicleLoc.lat?).orElse (fun _ => bothSpeedVehicleLoc.latitude?) =
        some 40 ∧
      (bothSpeedVehicleLoc.lon?).orElse (fun _ => bothSpeedVehicleLoc.longitude?) =
        some 20 ∧
      ¬((40 : ℚ) = 0 ∧ (20 : ℚ) = 0) ∧
      bothSpeedVehicleLoc.kph? = some 100 ∧ (100 : ℚ) ≠ 0) ∧
    (normalizeVehicleRecord 0 bothSpeedVehicle).map CanonReading.speed =
      some (((bothSpeedVehicleLoc.speed?).getD 100) * kphToMphFactor) :=
  ⟨⟨rfl, rfl, rfl, by norm_num, rfl, by norm_num⟩,
    speed_unit_normalization_per_path.1 0 bothSpeedVehicle bothSpeedVehicleLoc 100 40 20
      rfl rfl rfl (by norm_num) rfl (by norm_num)⟩

/-! ## C7 — status derivation -/

/-- C7 counterexample: an asset record with no status/state field and a
positive reported speed is normalized to status "stopped", not the
speed-derived "moving". -/
theorem asset_status_not_derived_from_speed :
    (normalizeAssetRecord 0 assetSpeedOnly).map CanonReading.speed =
      some (100 * kphToMphFactor) ∧
    (0 : ℚ) < 100 * kphToMphFactor ∧
    (normalizeAssetRecord 0 assetSpeedOnly).map CanonReading.status =
      some "stopped" :=
  ⟨rfl, by norm_num [kphToMphFactor], rfl⟩

/-- C7 (amended): the speed-derived moving/stopped default exists only on the
vehicle poll path (when `vehicle_state` is absent or empty); the asset poll
path derives status solely from the `moving === true` flag, regardless of
speed; and the webhook path defaults status to "unknown" when no
`type`/`event_type`/`status` field is present, never deriving it from speed. -/
theorem status_default_per_path :
    (∀ now (v : RawVehicle) (loc : VehicleLoc) (lat lon : ℚ) r,
      v.current_location? = some loc →
      (loc.lat?).orElse (fun _ => loc.latitude?) = some lat →
      (loc.lon?).orElse (fun _ => loc.longitude?) = some lon →
      ¬(lat = 0 ∧ lon = 0) →
      truthyStr loc.vehicle_state? = false →
      normalizeVehicleRecord now v = some r →
      r.status = if 0 < r.speed then "moving" else "stopped") ∧
    (∀ now (a : RawAsset) (loc : AssetLoc) (lat lon : ℚ) r,
      assetLocation a = some loc →
      (loc.lat?).orElse (fun _ => loc.latitude?) = some lat →
      (loc.lon?).orElse (fun _ => loc.longitude?) = some lon →
      ¬(lat = 0 ∧ lon = 0) →
      normalizeAssetRecord now a = some r →
      r.status = if loc.moving? == some true then "moving" else "stopped") ∧
    (∀ (b : WebhookBody), b.type? = none → b.event_type? = none →
      b.status? = none → extractWebhookStatus b = "unknown") ∧
    (∀ now (b : WebhookBody) (st : ServerState),
      (handleMotiveWebhook now (.objectPayload b) st).1 = WebhookOutcome.stored →
      ∃ row, (handleMotiveWebhook now (.objectPayload b) st).2.dbLocations =
        st.dbLocations ++ [row] ∧ row.status = extractWebhookStatus b) := by
  refine ⟨?_, ?_, ?_, ?_⟩
  · intro now v loc lat lon r hcl hlat hlon h0 hvs hr
    have hfac : (0 : ℚ) < kphToMphFactor := by norm_num [kphToMphFactor]
    simp only [normalizeVehicleRecord, hcl, hlat, hlon] at hr
    rw [if_neg h0] at hr
    cases hk : loc.kph? with
    | none =>
      simp only [hk, hvs] at hr
      cases hr
      rfl
    | some k =>
      by_cases hkz : k = 0
      · simp only [hk, hvs, hkz, if_pos rfl] at hr
        cases hr
        rfl
      · simp only [hk, hvs, if_neg hkz] at hr
        cases hr
        simp only [Bool.false_eq_true, if_false, mul_pos_iff_of_pos_right hfac]
  · intro now a loc lat lon r hcl hlat hlon h0 hr
    simp only [normalizeAssetRecord, hcl, hlat, hlon] at hr
    rw [if_neg h0] at hr
    cases hr
    rfl
  · intro b ht he hs
    simp [extractWebhookStatus, ht, he, hs]
  · intro now b st h
    obtain ⟨lat, lon, _, hdb⟩ := handle_stored_row now b st h
    exact ⟨webhookRow now b lat lon, hdb, rfl⟩

/-- Witness for C7 (amended): the asset path maps a flagless fast record to
"stopped". -/
theorem status_default_per_path_witness :
    (assetSpeedOnly.current_location? = some speedOnlyAssetLoc ∧
      assetLocation assetSpeedOnly = some speedOnlyAssetLoc ∧
      ¬((40 : ℚ) = 0 ∧ (-96 : ℚ) = 0)) ∧
    (∃ r, normalizeAssetRecord 0 assetSpeedOnly = some r ∧
      r.status = if speedOnlyAssetLoc.moving? == some true then "moving"
        else "stopped") :=
  ⟨⟨rfl, rfl, by norm_num⟩,
    ⟨{ vehicleId := "asset-a1", latitude := 40, longitude := -96,
       speed := 100 * kphToMphFactor, heading := 0, status := "stopped",
       timestamp := TimeVal.fromMillis 0 }, rfl,
      status_default_per_path.2.1 0 assetSpeedOnly speedOnlyAssetLoc 40 (-96)
        { vehicleId := "asset-a1", latitude := 40, longitude := -96,
          speed := 100 * kphToMphFactor, heading := 0, status := "stopped",
          timestamp := TimeVal.fromMillis 0 }
        rfl rfl rfl (by norm_num) rfl⟩⟩

/-! ## C3 — dedup/throttle scenario -/

/-- C3: for a fixed vehicle with fresh gate state, two webhook readings
submitted within the throttle window persist exactly one row, and a third
reading submitted after the window whose latitude and longitude are each
within the spatial-dedup threshold of the last accepted coordinates is also
suppressed (no row persisted). -/
theorem dedup_throttle_scenario
    (st0 : ServerState) (v : String) (hv : v ≠ "")
    (now1 now2 now3 : ℕ) (lat1 lon1 lat2 lon2 lat3 lon3 : ℚ)
    (hfresh1 : alGet st0.lastUpdateTime v = none)
    (hfresh2 : alGet st0.lastKnownCoords v = none)
    (hepoch : LOCATION_UPDATE_INTERVAL_MS ≤ now1)
    (hwin : now2 - now1 < LOCATION_UPDATE_INTERVAL_MS)
    (hafter : now1 + LOCATION_UPDATE_INTERVAL_MS ≤ now3)
    (hnear1 : |lat1 - lat3| < coordThreshold)
    (hnear2 : |lon1 - lon3| < coordThreshold) :
    (handleMotiveWebhook now1 (.objectPayload (mkLocationEvent v lat1 lon1))
      st0).2.dbLocations.length = st0.dbLocations.length + 1 ∧
    (handleMotiveWebhook now2 (.objectPayload (mkLocationEvent v lat2 lon2))
      (handleMotiveWebhook now1 (.objectPayload (mkLocationEvent v lat1 lon1))
        st0).2).2.dbLocations =
      (handleMotiveWebhook now1 (.objectPayload (mkLocationEvent v lat1 lon1))
        st0).2.dbLocations ∧
    (handleMotiveWebhook now3 (.objectPayload (mkLocationEvent v lat3 lon3))
      (handleMotiveWebhook now2 (.objectPayload (mkLocationEvent v lat2 lon2))
        (handleMotiveWebhook now1 (.objectPayload (mkLocationEvent v lat1 lon1))
          st0).2).2).2.dbLocations =
      (handleMotiveWebhook now2 (.objectPayload (mkLocationEvent v lat2 lon2))
        (handleMotiveWebhook now1 (.objectPayload (mkLocationEvent v lat1 lon1))
          st0).2).2.dbLocations := by
  -- Reading 1: fresh state, both checks pass, one row stored.
  have hc1 : LOCATION_UPDATE_INTERVAL_MS ≤ now1 - (alGet st0.lastUpdateTime v).getD 0 := by
    rw [hfresh1]
    simpa using hepoch
  have hg1a : (shouldProcessLocationUpdate now1 st0.lastUpdateTime v).1 = true := by
    simp [shouldProcessLocationUpdate, hc1]
  have hg1b : (hasLocationChanged st0.lastKnownCoords v lat1 lon1).1 = true := by
    simp [hasLocationChanged, hfresh2]
  have e1 := handle_mk_stored now1 v lat1 lon1 st0 hv hg1a hg1b
  have h1db : (handleMotiveWebhook now1 (.objectPayload (mkLocationEvent v lat1 lon1))
      st0).2.dbLocations =
      st0.dbLocations ++ [webhookRow now1 (mkLocationEvent v lat1 lon1) lat1 lon1] := by
    rw [e1]
    rw [webhookStore_dbLocations]
    rfl
  have h1u : (handleMotiveWebhook now1 (.objectPayload (mkLocationEvent v lat1 lon1))
      st0).2.lastUpdateTime = alSet st0.lastUpdateTime v now1 := by
    rw [e1]
    exact (webhookStore_gate_frame _ _ _ _ _).1
  have h1c : (handleMotiveWebhook now1 (.objectPayload (mkLocationEvent v lat1 lon1))
      st0).2.lastKnownCoords = alSet st0.lastKnownCoords v (lat1, lon1) := by
    rw [e1]
    exact (webhookStore_gate_frame _ _ _ _ _).2
  -- Reading 2: within the window, throttled, nothing changes.
  have hg2a : (shouldProcessLocationUpdate now2
      (handleMotiveWebhook now1 (.objectPayload (mkLocationEvent v lat1 lon1))
        st0).2.lastUpdateTime v).1 = false := by
    rw [h1u]
    have hget : alGet (alSet st0.lastUpdateTime v now1) v = some now1 :=
      alGet_alSet_self _ _ _
    simp only [shouldProcessLocationUpdate, hget, Option.getD_some]
    simp [Nat.not_le.mpr hwin]
  have e2 := handle_mk_throttled now2 v lat2 lon2 _ hv hg2a
  have h2db : (handleMotiveWebhook now2 (.objectPayload (mkLocationEvent v lat2 lon2))
      (handleMotiveWebhook now1 (.objectPayload (mkLocationEvent v lat1 lon1))
        st0).2).2.dbLocations =
      (handleMotiveWebhook now1 (.objectPayload (mkLocationEvent v lat1 lon1))
        st0).2.dbLocations := by
    rw [e2]
    rfl
  have h2u : (handleMotiveWebhook now2 (.objectPayload (mkLocationEvent v lat2 lon2))
      (handleMotiveWebhook now1 (.objectPayload (mkLocationEvent v lat1 lon1))
        st0).2).2.lastUpdateTime = alSet st0.lastUpdateTime v now1 := by
    rw [e2]
    exact h1u
  have h2c : (handleMotiveWebhook now2 (.objectPayload (mkLocationEvent v lat2 lon2))
      (handleMotiveWebhook now1 (.objectPayload (mkLocationEvent v lat1 lon1))
        st0).2).2.lastKnownCoords = alSet st0.lastKnownCoords v (lat1, lon1) := by
    rw [e2]
    exact h1c
  -- Reading 3: after the window but spatially unchanged, suppressed.
  have hg3a : (shouldProcessLocationUpdate now3
      (handleMotiveWebhook now2 (.objectPayload (mkLocationEvent v lat2 lon2))
        (handleMotiveWebhook now1 (.objectPayload (mkLocationEvent v lat1 lon1))
          st0).2).2.lastUpdateTime v).1 = true := by
    rw [h2u]
    have hget : alGet (alSet st0.lastUpdateTime v now1) v = some now1 :=
      alGet_alSet_self _ _ _
    simp only [shouldProcessLocationUpdate, hget, Option.getD_some]
    have : LOCATION_UPDATE_INTERVAL_MS ≤ now3 - now1 := by omega
    simp [this]
  have hg3b : (hasLocationChanged
      (handleMotiveWebhook now2 (.objectPayload (mkLocationEvent v lat2 lon2))
        (handleMotiveWebhook now1 (.objectPayload (mkLocationEvent v lat1 lon1))
          st0).2).2.lastKnownCoords v lat3 lon3).1 = false := by
    rw [h2c]
    have hget : alGet (alSet st0.lastKnownCoords v (lat1, lon1)) v = some (lat1, lon1) :=
      alGet_alSet_self _ _ _
    unfold hasLocationChanged
    rw [hget]
    simp [hnear1, hnear2]
  have e3 := handle_mk_spatial_skip now3 v lat3 lon3 _ hv hg3a hg3b
  refine ⟨?_, h2db, ?_⟩
  · rw [h1db]
    simp
  · rw [e3]
    rfl

/-- Witness for C3 at the spec's example scenario (throttle window 30 s,
readings at t=30 s, t=35 s and t=65 s, third at the same coordinates). -/
theorem dedup_throttle_scenario_witness :
    (("T-1" : String) ≠ "" ∧
      alGet emptyServerState.lastUpdateTime "T-1" = none ∧
      alGet emptyServerState.lastKnownCoords "T-1" = none ∧
      LOCATION_UPDATE_INTERVAL_MS ≤ 30000 ∧
      35000 - 30000 < LOCATION_UPDATE_INTERVAL_MS ∧
      30000 + LOCATION_UPDATE_INTERVAL_MS ≤ 65000 ∧
      |(4354 : ℚ)/100 - 4354/100| < coordThreshold ∧
      |(-9673 : ℚ)/100 - (-9673)/100| < coordThreshold) ∧
    ((handleMotiveWebhook 30000 (.objectPayload
        (mkLocationEvent "T-1" (4354/100) (-9673/100)))
      emptyServerState).2.dbLocations.length =
        emptyServerState.dbLocations.length + 1 ∧
    (handleMotiveWebhook 35000 (.objectPayload
        (mkLocationEvent "T-1" (4354/100) (-9673/100)))
      (handleMotiveWebhook 30000 (.objectPayload
          (mkLocationEvent "T-1" (4354/100) (-9673/100)))
        emptyServerState).2).2.dbLocations =
      (handleMotiveWebhook 30000 (.objectPayload
          (mkLocationEvent "T-1" (4354/100) (-9673/100)))
        emptyServerState).2.dbLocations ∧
    (handleMotiveWebhook 65000 (.objectPayload
        (mkLocationEvent "T-1" (4354/100) (-9673/100)))
      (handleMotiveWebhook 35000 (.objectPayload
          (mkLocationEvent "T-1" (4354/100) (-9673/100)))
        (handleMotiveWebhook 30000 (.objectPayload
            (mkLocationEvent "T-1" (4354/100) (-9673/100)))
          emptyServerState).2).2).2.dbLocations =
      (handleMotiveWebhook 35000 (.objectPayload
          (mkLocationEvent "T-1" (4354/100) (-9673/100)))
        (handleMotiveWebhook 30000 (.objectPayload
            (mkLocationEvent "T-1" (4354/100) (-9673/100)))
          emptyServerState).2).2.dbLocations) :=
  ⟨⟨by decide, rfl, rfl, by decide, by decide, by decide,
      by norm_num [coordThreshold], by norm_num [coordThreshold]⟩,
    dedup_throttle_scenario emptyServerState "T-1" (by decide)
      30000 35000 65000 (4354/100) (-9673/100) (4354/100) (-9673/100)
      (4354/100) (-9673/100) rfl rfl (by decide) (by decide) (by decide)
      (by norm_num [coordThreshold]) (by norm_num [coordThreshold])⟩

/-! ## C8 — pagination termination -/

theorem classFetchLoop_pages_explicit {α : Type}
    (processRec : α → ServerState → ServerState) (accepts : α → Bool)
    (pages : ℕ → PageResp α) (N : ℕ) (recs : ℕ → List α)
    (hresp : ∀ p, 1 ≤ p → p ≤ N → pages p = .ok (recs p) (some ⟨some N⟩))
    (hne : ∀ p, 1 ≤ p → p ≤ N → recs p ≠ [])
    (hN : 1 ≤ N) :
    ∀ (fuel page : ℕ) (st : ServerState) (processed : ℕ) (reqs : List ℕ),
      1 ≤ page → page ≤ N → N - page < fuel →
      (classFetchLoop processRec accepts pages fuel page st processed
        reqs).pagesRequested = reqs ++ List.range' page (N - page + 1) := by
  intro fuel
  induction fuel with
  | zero => intro page st processed reqs h1 h2 h3; omega
  | succ f ih =>
    intro page st processed reqs h1 h2 h3
    have hp := hresp page h1 h2
    have hne' : (recs page).isEmpty = false := by
      simpa [List.isEmpty_iff] using hne page h1 h2
    have hN0 : N ≠ 0 := by omega
    have heff : (Pagination.mk (some N)).effectiveTotalPages = N := by
      simp [Pagination.effectiveTotalPages, hN0]
    rcases Nat.lt_or_ge page N with hlt | hge
    · have hcont : ¬ (Pagination.mk (some N)).effectiveTotalPages ≤ page := by
        rw [heff]; omega
      simp only [classFetchLoop, hp, hne', Bool.false_eq_true, if_false, hcont,
        if_neg hcont]
      rw [ih (page + 1) _ _ (reqs ++ [page]) (by omega) (by omega) (by omega)]
      have harr : N - page + 1 = (N - (page + 1) + 1) + 1 := by omega
      rw [harr, List.range'_succ]
      simp
      rw [List.range'_succ, List.range'_succ]
    · have hpageN : page = N := by omega
      subst hpageN
      have hstop := heff.le
      simp only [classFetchLoop, hp, hne', Bool.false_eq_true, if_false,
        if_pos hstop]
      have h11 : page - page + 1 = 1 := by omega
      rw [h11]
      rfl

/-- C8: when every upstream response carries an explicit pagination
total-page-count N ≥ 1 and every page 1..N is non-empty, the pagination loop
requests exactly pages 1 through N — neither stopping one page before N nor
requesting page N+1. -/
theorem pagination_stops_exactly_at_total {α : Type}
    (processRec : α → ServerState → ServerState) (accepts : α → Bool)
    (pages : ℕ → PageResp α) (N : ℕ) (recs : ℕ → List α)
    (hresp : ∀ p, 1 ≤ p → p ≤ N → pages p = .ok (recs p) (some ⟨some N⟩))
    (hne : ∀ p, 1 ≤ p → p ≤ N → recs p ≠ [])
    (hN : 1 ≤ N) (fuel : ℕ) (hfuel : N ≤ fuel) (st : ServerState) :
    (classFetchLoop processRec accepts pages fuel 1 st 0 []).pagesRequested =
      List.range' 1 N := by
  have h := classFetchLoop_pages_explicit processRec accepts pages N recs hresp hne hN
    fuel 1 st 0 [] le_rfl hN (by omega)
  have hN1 : N - 1 + 1 = N := by omega
  rw [hN1] at h
  simpa using h

/-- Witness for C8 at a concrete three-page upstream. -/
theorem pagination_stops_exactly_at_total_witness :
    ((∀ p, 1 ≤ p → p ≤ 3 → constPages3 p = .ok [p] (some ⟨some 3⟩)) ∧
      (∀ p, 1 ≤ p → p ≤ 3 → ([p] : List ℕ) ≠ []) ∧
      (1 : ℕ) ≤ 3 ∧ (3 : ℕ) ≤ 3) ∧
    (classFetchLoop (fun _ s => s) (fun _ => true) constPages3 3 1
      emptyServerState 0 []).pagesRequested = List.range' 1 3 :=
  ⟨⟨fun _ _ _ => rfl, fun _ _ _ => by simp, by decide, by decide⟩,
    pagination_stops_exactly_at_total (fun _ s => s) (fun _ => true) constPages3 3
      (fun p => [p]) (fun _ _ _ => rfl) (fun _ _ _ => by simp) (by decide) 3
      (by decide) emptyServerState⟩

/-! ## C9 — poll-cycle mutual exclusion -/

/-- C9: a trigger (timer or manual) arriving while a cycle is in flight is a
complete no-op — no upstream fetch, no persistence, no poll outcome recorded,
no state change — so two cycles never overlap and skipped triggers are lost
rather than deferred; a cycle run through both class attempts clears the busy
flag, after which a later trigger starts a fresh cycle normally. -/
theorem poll_mutual_exclusion :
    (∀ s : SysState, s.busy = true → pollTrigger s = s) ∧
    (∀ (env : PollEnv) (s : SysState), (completeCycle env s).busy = false) ∧
    (∀ s : SysState, s.busy = false →
      pollTrigger s = { s with inflight := some [TClass.vehicles, TClass.assets] }) ∧
    (∀ (env : PollEnv) (s : SysState),
      pollTrigger (completeCycle env s) =
        { completeCycle env s with
          inflight := some [TClass.vehicles, TClass.assets] }) := by
  have h1 : ∀ s : SysState, s.busy = true → pollTrigger s = s := by
    intro s h
    simp only [SysState.busy] at h
    simp [pollTrigger, h]
  have h2 : ∀ (env : PollEnv) (s : SysState), (completeCycle env s).busy = false := by
    intro env s
    cases hs : s.inflight with
    | none => simp [completeCycle, hs, SysState.busy]
    | some cs => simp [completeCycle, hs, SysState.busy]
  have h3 : ∀ s : SysState, s.busy = false →
      pollTrigger s = { s with inflight := some [TClass.vehicles, TClass.assets] } := by
    intro s h
    simp only [SysState.busy] at h
    simp [pollTrigger, h]
  exact ⟨h1, h2, h3, fun env s => h3 _ (h2 env s)⟩

/-- Witness for C9: a trigger against an in-flight cycle changes nothing. -/
theorem poll_mutual_exclusion_witness :
    busySysState.busy = true ∧ pollTrigger busySysState = busySysState :=
  ⟨by decide, poll_mutual_exclusion.1 busySysState (by decide)⟩

end Tracker
